import Mathlib

/-!
Verification of the FastIntercomMCP sync core against its specification.

The development shallowly embeds the parts of the repository that the
claims are about:

* `fast_intercom_mcp/core/progress.py` — `ProgressEvent`, `ProgressType`,
  `ProgressBroadcaster.create_event`, `ProgressBroadcaster.add_callback`
  and the callback-dispatch loop of `ProgressBroadcaster.broadcast`.
* `fast_intercom_mcp/cli.py` — the forced manual sync window computation
  of the `sync` command and its registered `progress_callback`, and the
  variadic progress callback of the integration test suite.
* The Sync Service / Two-Phase Sync Coordinator (`sync_service.py`), which
  is not present in the source tree; those definitions are modelled from
  the specification and are marked as such in their doc comments.

Machine integers are modelled as `Int`/`Nat` (Python integers are
arbitrary precision, so no wraparound is involved); Python `float` values
that only flow through arithmetic stated by the claims are modelled as
exact rationals (`Rat`); fallible code is modelled with `Option`/`Except`
or explicit outcome types.
-/

/-! ## Data model: conversations, messages, sync statistics -/

/-- A message inside a conversation (`models.py` `Message`): identifier,
author classification, free-text body, creation timestamp (seconds), and
part-type tag. -/
structure Message where
  id : String
  author_type : String
  body : String
  created_at : Int
  part_type : String
deriving Repr, DecidableEq

/-- A conversation (`models.py` `Conversation`): opaque string identifier,
creation and last-update timestamps (seconds), ordered message list, and
customer identifier. -/
structure Conversation where
  id : String
  created_at : Int
  updated_at : Int
  messages : List Message
  customer_email : String
deriving Repr, DecidableEq

/-- The immutable result record of one sync invocation (`models.py`
`SyncStats`).  `duration_seconds` is wall-clock time in the program; the
model does not track a clock and always reports `0` there. -/
structure SyncStats where
  total_conversations : Nat
  new_conversations : Nat
  updated_conversations : Nat
  total_messages : Nat
  duration_seconds : Rat
  api_calls_made : Nat
  errors_encountered : Nat
deriving Repr, DecidableEq

/-! ## Progress events (`core/progress.py`) -/

/-- Types of progress events (`ProgressType` enum in `core/progress.py`). -/
inductive ProgressType where
  | sync_start
  | sync_progress
  | sync_complete
  | api_request
  | database_operation
  | error
  | info
  | test_start
  | test_progress
  | test_complete
deriving Repr, DecidableEq

/-- Structured progress event (`ProgressEvent` dataclass in
`core/progress.py`).  Metadata dictionaries are modelled as association
lists of strings. -/
structure ProgressEvent where
  timestamp : String
  event_type : ProgressType
  message : String
  current : Option Int
  total : Option Int
  percentage : Option Rat
  metadata : Option (List (String × String))
deriving Repr, DecidableEq

namespace ProgressBroadcaster

/-- `ProgressBroadcaster.create_event` from `core/progress.py`: builds a
`ProgressEvent`, computing `percentage = (current / total) * 100` only when
both `current` and `total` are present and `total > 0` and leaving it
`None` otherwise.  The timestamp (`datetime.utcnow().isoformat()` in the
program) is passed in explicitly; Python float division is modelled as
exact division on `Rat`. -/
def create_event (timestamp : String) (event_type : ProgressType) (message : String)
    (current : Option Int) (total : Option Int)
    (metadata : List (String × String)) : ProgressEvent :=
  let percentage : Option Rat :=
    match current, total with
    | some c, some t => if 0 < t then some (((c : Rat) / (t : Rat)) * 100) else none
    | _, _ => none
  { timestamp := timestamp
    event_type := event_type
    message := message
    current := current
    total := total
    percentage := percentage
    metadata := if metadata.isEmpty then none else some metadata }

/-- A registered progress callback, as used by
`ProgressBroadcaster.broadcast`: it receives the event and either returns
normally or raises an exception, modelled as `Except` with the
exception's rendered text. -/
def Callback : Type := ProgressEvent → Except String Unit

/-- `ProgressBroadcaster.add_callback`: appends a callback to the
broadcaster's callback list (`self._callbacks.append(callback)`). -/
def add_callback (callbacks : List Callback) (callback : Callback) : List Callback :=
  callbacks ++ [callback]

/-- Trace of one run of the callback-dispatch loop at the end of
`ProgressBroadcaster.broadcast`: the individual callback invocations in
the order they happen, and the warnings logged for callbacks that raised. -/
structure BroadcastRun where
  calls : List (ProgressEvent × Except String Unit)
  warnings : List String
deriving Repr

/-- The callback-dispatch loop of `ProgressBroadcaster.broadcast`
(`for callback in self._callbacks: try: callback(event) except ...`):
each callback is invoked with the event; an exception is caught, a warning
is logged, and the loop continues with the next callback. -/
def broadcast_callbacks (event : ProgressEvent) : List Callback → BroadcastRun
  | [] => { calls := [], warnings := [] }
  | callback :: rest =>
    let r := callback event
    let tail := broadcast_callbacks event rest
    match r with
    | Except.ok _ => { calls := (event, r) :: tail.calls, warnings := tail.warnings }
    | Except.error e =>
      { calls := (event, r) :: tail.calls
        warnings := ("Progress callback failed: " ++ e) :: tail.warnings }

end ProgressBroadcaster

/-! ## CLI (`cli.py`) -/

namespace Cli

/-- The possible shapes in which a progress notification is delivered to a
registered callback (spec: dual calling convention — either a single
message string or a `(current, total, elapsed_seconds)` triple).  The
Python `float` elapsed time is modelled as a rational. -/
inductive ProgressArgs where
  | single (message : String)
  | triple (current : Int) (total : Int) (elapsed : Rat)
deriving Repr, DecidableEq

/-- The progress callback registered by the CLI `sync --force` path
(`cli.py`, inside `run_sync`):
`def progress_callback(current: int, total: int, elapsed: float): pass`.
It declares exactly three required positional parameters, so a call with a
single message string raises `TypeError` (modelled as `none`); a call with
the triple returns normally (the body is `pass`). -/
def progress_callback : ProgressArgs → Option Unit
  | ProgressArgs.triple _ _ _ => some ()
  | ProgressArgs.single _ => none

/-- Rendering of the test suite's message for triple-shaped calls,
mirroring the f-string
`f"Progress: {current}/{total} ({elapsed:.2f}s)"` from
`tests/integration/test_feature_compatibility.py` (the two-decimal float
formatting is abstracted to an exact rendering of the rational). -/
def formatTripleMessage (current : Int) (total : Int) (elapsed : Rat) : String :=
  "Progress: " ++ toString current ++ "/" ++ toString total
    ++ " (" ++ toString elapsed ++ "s)"

/-- The variadic progress callback of the integration test suite
(`tests/integration/test_feature_compatibility.py`):
`def progress_callback(*args, **kwargs)` which accepts a single message
argument or a `(current, total, elapsed)` triple, records a message in
both cases, and never raises.  The result is the recorded message. -/
def test_suite_progress_callback : ProgressArgs → Option String
  | ProgressArgs.single message => some message
  | ProgressArgs.triple current total elapsed =>
    some (formatTripleMessage current total elapsed)

/-- The window computed by the CLI `sync` command in `--force` mode
(`cli.py`): `days_clamped = min(days, 30)` and
`start_date = now - timedelta(days=days_clamped)`; the pair
`(start_date, now)` is then passed to `sync_service.sync_period`.
Timestamps are seconds, so one day is `86400`. -/
def sync_force_window (days : Int) (now : Int) : Int × Int :=
  let days_clamped := min days 30
  (now - days_clamped * 86400, now)

/-- Validation of `--sync-days` in the CLI `init` command (`cli.py`):
`if sync_days < 0: sync_days = 7`; `0` means ALL history and is kept. -/
def init_validate_sync_days (sync_days : Int) : Int :=
  if sync_days < 0 then 7 else sync_days

end Cli

/-! ## Local Store

Modelled from the spec: the Local Store Interface (`database.py`, not
present under `src/`) — an upsert/query store of conversations keyed by
identifier plus persisted `SyncPeriod` coverage records.  Conversation
storage is modelled as an association list keyed by the identifier. -/

/-- A persisted `SyncPeriod` coverage record: a time range plus metadata
(conversation count, last-synced timestamp). -/
structure SyncPeriodRec where
  period_start : Int
  period_end : Int
  conversation_count : Nat
  last_synced : Int
deriving Repr, DecidableEq

/-- Lookup in an association list of conversations keyed by identifier. -/
def lookupConv : List (String × Conversation) → String → Option Conversation
  | [], _ => none
  | (k, v) :: rest, id => if k = id then some v else lookupConv rest id

/-- Idempotent upsert into an association list of conversations: replace
the entry for the identifier if present, append it otherwise. -/
def upsertConv (l : List (String × Conversation)) (id : String) (c : Conversation) :
    List (String × Conversation) :=
  match l with
  | [] => [(id, c)]
  | (k, v) :: rest => if k = id then (id, c) :: rest else (k, v) :: upsertConv rest id c

/-- Modelled from the spec: the Local Store (`database.py`, not under
`src/`): conversations (with their messages) keyed by identifier, and the
persisted `SyncPeriod` coverage records. -/
structure LocalStore where
  conversations : List (String × Conversation)
  sync_periods : List SyncPeriodRec
deriving Repr, DecidableEq

namespace LocalStore

/-- `get_conversation_by_id` of the Local Store Interface. -/
def get_conversation_by_id (s : LocalStore) (id : String) : Option Conversation :=
  lookupConv s.conversations id

/-- `store_conversations` for a single conversation: idempotent upsert
keyed by the identifier. -/
def upsert (s : LocalStore) (id : String) (c : Conversation) : LocalStore :=
  { s with conversations := upsertConv s.conversations id c }

/-- `record_sync_period(start, end, stats)` of the Local Store Interface:
persists a coverage record for the window. -/
def record_sync_period (s : LocalStore) (period_start period_end : Int)
    (conversation_count : Nat) (now : Int) : LocalStore :=
  { s with sync_periods :=
      { period_start := period_start
        period_end := period_end
        conversation_count := conversation_count
        last_synced := now } :: s.sync_periods }

end LocalStore

/-! ## Two-Phase Sync Coordinator and Sync Service

Modelled from the spec: `sync_service.py` (the Two-Phase Sync Coordinator
and the Sync Service) is imported by `cli.py` but is not present under
`src/`; the definitions below follow spec sections 4.1, 4.2, 5 and 7.
The remote interface and failure injection are inputs: the phase-1 search
result is the page sequence the Remote Fetch Interface would return for
the window, `fetch` gives each identifier's phase-2 outcome, `storeWrite`
tells whether the Local Store write for an identifier succeeds
(`false` = `LocalStoreError`), and `cancelAfter` optionally cancels the
run before the fetch with that index. -/

/-- Outcome of a phase-2 fetch of one identifier: full content, a
`TransientRemoteError`, or a `NotFoundRemoteError`. -/
inductive FetchResult where
  | success (conv : Conversation)
  | transientError
  | notFound
deriving Repr, DecidableEq

/-- Whether a fetch outcome is a success. -/
def FetchResult.isSuccess : FetchResult → Bool
  | FetchResult.success _ => true
  | _ => false

/-- Whether a fetch outcome is a `TransientRemoteError`. -/
def FetchResult.isTransient : FetchResult → Bool
  | FetchResult.transientError => true
  | _ => false

/-- The environment of one `sync_period` run: phase-1 search pages,
phase-2 fetch outcomes, Local Store write outcomes, and an optional
cancellation point. -/
structure SyncInputs where
  pages : List (List String)
  fetch : String → FetchResult
  storeWrite : String → Bool
  cancelAfter : Option Nat

/-- Deduplication helper: keep the first occurrence of each identifier,
skipping identifiers already seen. -/
def dedupAux (seen : List String) : List String → List String
  | [] => []
  | id :: rest =>
    if id ∈ seen then dedupAux seen rest else id :: dedupAux (id :: seen) rest

/-- Modelled from the spec (§4.1 Phase 1): identifiers accumulated across
search pages are deduplicated before phase 2, keeping first occurrences. -/
def dedupIds (ids : List String) : List String :=
  dedupAux [] ids

/-- Mutable state of one coordinator run: the Local Store plus the
statistics counters, and the trace of identifiers for which a phase-2
fetch was issued (in order). -/
structure RunState where
  store : LocalStore
  attempts : List String
  total : Nat
  newConvs : Nat
  updatedConvs : Nat
  messages : Nat
  apiCalls : Nat
  errors : Nat
deriving Repr

/-- Outcome of phase 2: completed, aborted by a `LocalStoreError`, or
cancelled before completion.  Each case carries the run state reached,
since partial state already written to the Local Store remains. -/
inductive Phase2Outcome where
  | completed (st : RunState)
  | storeFailed (st : RunState)
  | cancelled (st : RunState)
deriving Repr

/-- The run state carried by a phase-2 outcome. -/
def Phase2Outcome.state : Phase2Outcome → RunState
  | Phase2Outcome.completed st => st
  | Phase2Outcome.storeFailed st => st
  | Phase2Outcome.cancelled st => st

/-- Modelled from the spec (§4.1 Phase 2, §7): for each discovered
identifier, fetch full content (`get_conversation` + `get_messages`, two
API calls on success, one on failure) and upsert it into the Local Store;
a `TransientRemoteError` increments the error counter and the loop
continues; a `NotFoundRemoteError` drops the identifier without touching
the hard error counter; a `LocalStoreError` aborts the pass; new vs
updated is decided by an existence check before the upsert.  `k` counts
the fetches already dispatched, for the cancellation point. -/
def fetchPhase (inp : SyncInputs) : List String → Nat → RunState → Phase2Outcome
  | [], _, st => Phase2Outcome.completed st
  | id :: rest, k, st =>
    if inp.cancelAfter = some k then Phase2Outcome.cancelled st
    else
      match inp.fetch id with
      | FetchResult.success conv =>
        let isNew := (st.store.get_conversation_by_id id).isNone
        if inp.storeWrite id then
          fetchPhase inp rest (k + 1)
            { store := st.store.upsert id conv
              attempts := st.attempts ++ [id]
              total := st.total + 1
              newConvs := if isNew then st.newConvs + 1 else st.newConvs
              updatedConvs := if isNew then st.updatedConvs else st.updatedConvs + 1
              messages := st.messages + conv.messages.length
              apiCalls := st.apiCalls + 2
              errors := st.errors }
        else
          Phase2Outcome.storeFailed
            { st with attempts := st.attempts ++ [id], apiCalls := st.apiCalls + 2 }
      | FetchResult.transientError =>
        fetchPhase inp rest (k + 1)
          { st with
            attempts := st.attempts ++ [id]
            apiCalls := st.apiCalls + 1
            errors := st.errors + 1 }
      | FetchResult.notFound =>
        fetchPhase inp rest (k + 1)
          { st with attempts := st.attempts ++ [id], apiCalls := st.apiCalls + 1 }

/-- Errors a sync pass can raise (spec §7): `syncFailed` when zero
conversations could be processed at all, `localStoreError` when a store
write fails, and cancellation before completion. -/
inductive SyncError where
  | syncFailed
  | localStoreError
  | cancelledBeforeCompletion
deriving Repr, DecidableEq

/-- Result of a sync pass: normal return with the final Local Store and
the `SyncStats` aggregate, or a raised error together with the Local Store
as left behind (partial upserts remain). -/
inductive SyncOutcome where
  | ok (store : LocalStore) (stats : SyncStats)
  | failed (store : LocalStore) (err : SyncError)
deriving Repr, DecidableEq

/-- The `SyncStats` aggregate built from a finished run state
(spec §4.1 Output); wall-clock duration is not modelled and reported
as `0`. -/
def mkStats (st : RunState) : SyncStats :=
  { total_conversations := st.total
    new_conversations := st.newConvs
    updated_conversations := st.updatedConvs
    total_messages := st.messages
    duration_seconds := 0
    api_calls_made := st.apiCalls
    errors_encountered := st.errors }

/-- The run state at the start of phase 2: the store as given, no
identifiers attempted, all counters zero except `apiCalls`, which already
counts the phase-1 search pages. -/
def initialRunState (store : LocalStore) (searchPages : Nat) : RunState :=
  { store := store
    attempts := []
    total := 0
    newConvs := 0
    updatedConvs := 0
    messages := 0
    apiCalls := searchPages
    errors := 0 }

/-- Modelled from the spec: `SyncService.sync_period(start, end)`
(`sync_service.py`, not under `src/`), spec §§4.1, 4.2, 7 and 8 —
phase 1 accumulates and deduplicates identifiers across the search pages,
phase 2 fetches each one, and on full completion the coverage record is
written via `record_sync_period`; the pass raises when a store write
fails, when it is cancelled before completion, or when zero conversations
could be processed at all while errors occurred; no coverage record is
written in any of those cases.  Policy choices the spec leaves open,
fixed here: a window whose search discovers no identifiers returns
normally without writing anything (spec §8 marks recording such windows
as policy-dependent). -/
def sync_period (inp : SyncInputs) (period_start period_end now : Int)
    (store : LocalStore) : SyncOutcome :=
  let ids := dedupIds inp.pages.flatten
  match fetchPhase inp ids 0 (initialRunState store inp.pages.length) with
  | Phase2Outcome.completed st =>
    if 0 < st.errors ∧ st.total = 0 then
      SyncOutcome.failed st.store SyncError.syncFailed
    else if ids.isEmpty then
      SyncOutcome.ok st.store (mkStats st)
    else
      SyncOutcome.ok (st.store.record_sync_period period_start period_end st.total now)
        (mkStats st)
  | Phase2Outcome.storeFailed st => SyncOutcome.failed st.store SyncError.localStoreError
  | Phase2Outcome.cancelled st =>
    SyncOutcome.failed st.store SyncError.cancelledBeforeCompletion

/-- Modelled from the spec: the window selected by
`SyncService.sync_initial(days)` (`sync_service.py`, not under `src/`),
spec §§4.2 and 8 — `[now - days, now)` for `days > 0`, and for
`days == 0` an unlimited-history window whose upper bound is `now` and
whose lower bound is absent (`none`).  Days are converted to seconds. -/
def sync_initial_window (days : Int) (now : Int) : Option Int × Int :=
  if days = 0 then (none, now) else (some (now - days * 86400), now)

/-- Membership of a timestamp in a window with an optional lower bound:
an absent lower bound excludes nothing in the past. -/
def inWindow (w : Option Int × Int) (t : Int) : Prop :=
  (match w.1 with
   | none => True
   | some lo => lo ≤ t) ∧ t < w.2

/-! ## Single-flight guarantee of the Sync Service

Modelled from the spec: the Sync Service's single-flight state
(`sync_service.py`, not under `src/`), spec §§4.2, 5, 7 and the design
note about the mutex-guarded "is a sync running" flag.  Two concurrent
`sync_recent()` callers are modelled as an interleaved transition system:
each caller atomically checks-and-sets the flag; if the flag is already
set, the caller immediately receives the structured "already running"
result (spec §7 `ConcurrencyConflictError`); a running caller eventually
finishes, clearing the flag and obtaining its `SyncStats`. -/

/-- The result one `sync_recent()` caller ends with: the stats of a
coordinator pass it executed itself, or the structured "already running"
indication. -/
inductive SyncCallResult where
  | completed (stats : SyncStats)
  | alreadyRunning
deriving Repr, DecidableEq

/-- The phase of one `sync_recent()` caller: not yet started, currently
executing the coordinator pass against the Local Store, or finished with
its result. -/
inductive CallerPhase where
  | idle
  | running
  | done (r : SyncCallResult)
deriving Repr, DecidableEq

/-- Joint state of the Sync Service's sync-in-progress flag and two
concurrent `sync_recent()` callers. -/
structure ServiceState where
  syncing : Bool
  caller1 : CallerPhase
  caller2 : CallerPhase
deriving Repr, DecidableEq

/-- Initial state: no sync in progress, both callers not yet started. -/
def initialServiceState : ServiceState :=
  { syncing := false, caller1 := CallerPhase.idle, caller2 := CallerPhase.idle }

/-- Atomic interleaved steps of the two callers.  The check of the flag
and its update are one step (atomic check-and-set, as the design note
requires); finishing a pass clears the flag in the same step as
publishing the result. -/
inductive SyncStep : ServiceState → ServiceState → Prop where
  | acquire1 (s : ServiceState) : s.syncing = false → s.caller1 = CallerPhase.idle →
      SyncStep s { s with syncing := true, caller1 := CallerPhase.running }
  | reject1 (s : ServiceState) : s.syncing = true → s.caller1 = CallerPhase.idle →
      SyncStep s { s with caller1 := CallerPhase.done SyncCallResult.alreadyRunning }
  | finish1 (s : ServiceState) (stats : SyncStats) : s.caller1 = CallerPhase.running →
      SyncStep s { s with syncing := false,
                          caller1 := CallerPhase.done (SyncCallResult.completed stats) }
  | acquire2 (s : ServiceState) : s.syncing = false → s.caller2 = CallerPhase.idle →
      SyncStep s { s with syncing := true, caller2 := CallerPhase.running }
  | reject2 (s : ServiceState) : s.syncing = true → s.caller2 = CallerPhase.idle →
      SyncStep s { s with caller2 := CallerPhase.done SyncCallResult.alreadyRunning }
  | finish2 (s : ServiceState) (stats : SyncStats) : s.caller2 = CallerPhase.running →
      SyncStep s { s with syncing := false,
                          caller2 := CallerPhase.done (SyncCallResult.completed stats) }

/-- States reachable from the initial state by interleaved steps. -/
def ReachableServiceState (s : ServiceState) : Prop :=
  Relation.ReflTransGen SyncStep initialServiceState s

/-- The inductive single-flight invariant: a running caller implies the
flag is set, and the two callers are never running at the same time. -/
def SingleFlightInv (s : ServiceState) : Prop :=
  (s.caller1 = CallerPhase.running → s.syncing = true) ∧
  (s.caller2 = CallerPhase.running → s.syncing = true) ∧
  ¬(s.caller1 = CallerPhase.running ∧ s.caller2 = CallerPhase.running)

/-! ## Concrete fixtures for witnesses and counterexamples -/

namespace Fixtures

/-- A concrete message. -/
def msgA : Message :=
  { id := "mA", author_type := "user", body := "hello", created_at := 1,
    part_type := "comment" }

/-- A concrete conversation with identifier `A`. -/
def convA : Conversation :=
  { id := "A", created_at := 0, updated_at := 50, messages := [msgA],
    customer_email := "a@example.com" }

/-- A concrete conversation with identifier `B`. -/
def convB : Conversation :=
  { id := "B", created_at := 5, updated_at := 55, messages := [],
    customer_email := "b@example.com" }

/-- A concrete conversation with identifier `C`. -/
def convC : Conversation :=
  { id := "C", created_at := 10, updated_at := 60, messages := [],
    customer_email := "c@example.com" }

/-- An empty Local Store. -/
def emptyStore : LocalStore := { conversations := [], sync_periods := [] }

/-- Phase-2 outcomes for the partial-failure scenarios: `A` and `C` fetch
successfully, every other identifier (in particular `B`) raises a
`TransientRemoteError`. -/
def demoFetch : String → FetchResult := fun id =>
  if id = "A" then FetchResult.success convA
  else if id = "C" then FetchResult.success convC
  else FetchResult.transientError

/-- A page sequence containing an empty page and a duplicated
identifier: three pages yielding the distinct identifiers `A`, `B`, `C`. -/
def dupPages : List (List String) := [["A", "B"], [], ["B", "C"]]

/-- Inputs of a run over `dupPages` in which the fetch of `B` fails
transiently and the Local Store accepts every write. -/
def dupInputs : SyncInputs :=
  { pages := dupPages, fetch := demoFetch, storeWrite := fun _ => true,
    cancelAfter := none }

/-- Fetch outcomes where both `A` and `B` succeed. -/
def abFetch : String → FetchResult := fun id =>
  if id = "A" then FetchResult.success convA else FetchResult.success convB

/-- Inputs of a run in which the fetch phase succeeds but the Local Store
write for `B` fails with a `LocalStoreError`. -/
def failingWriteInputs : SyncInputs :=
  { pages := [["A", "B"]], fetch := abFetch, storeWrite := fun id => id == "A",
    cancelAfter := none }

/-- A Local Store that already holds one coverage record. -/
def storeWithPeriod : LocalStore :=
  { conversations := [],
    sync_periods := [{ period_start := -100, period_end := -50,
                       conversation_count := 3, last_synced := -10 }] }

/-- The Local Store left behind by the aborted run of
`failingWriteInputs` over `storeWithPeriod`: `A` was upserted before the
write for `B` failed. -/
def storeAfterAbort : LocalStore := storeWithPeriod.upsert "A" convA

/-- Inputs whose phase-1 search discovers nothing: two empty pages. -/
def emptyPagesInputs : SyncInputs :=
  { pages := [[], []], fetch := demoFetch, storeWrite := fun _ => true,
    cancelAfter := none }

/-- A service state in which caller 1 is running and caller 2 was
rejected with the "already running" indication, reachable from the
initial state by `acquire1` followed by `reject2`. -/
def interleavedState : ServiceState :=
  { syncing := true, caller1 := CallerPhase.running,
    caller2 := CallerPhase.done SyncCallResult.alreadyRunning }

end Fixtures

/-! ## Helper lemmas -/

theorem lookupConv_upsertConv_self (l : List (String × Conversation)) (id : String)
    (c : Conversation) : lookupConv (upsertConv l id c) id = some c := by
  induction l with
  | nil => simp [upsertConv, lookupConv]
  | cons p rest ih =>
    by_cases h : p.1 = id <;> simp [upsertConv, lookupConv, h, ih]

theorem lookupConv_upsertConv_ne (l : List (String × Conversation)) (id k : String)
    (c : Conversation) (h : k ≠ id) :
    lookupConv (upsertConv l id c) k = lookupConv l k := by
  induction l with
  | nil => simp [upsertConv, lookupConv, Ne.symm h]
  | cons p rest ih =>
    by_cases hp : p.1 = id
    · simp [upsertConv, lookupConv, hp, Ne.symm h]
    · simp only [upsertConv, if_neg hp, lookupConv]
      by_cases hk : p.1 = k <;> simp [hk, ih]

theorem mem_dedupAux (x : String) :
    ∀ (l seen : List String), x ∈ dedupAux seen l ↔ x ∈ l ∧ x ∉ seen := by
  intro l
  induction l with
  | nil => simp [dedupAux]
  | cons id rest ih =>
    intro seen
    by_cases h : id ∈ seen
    · simp only [dedupAux, if_pos h, ih]
      constructor
      · rintro ⟨hx, hs⟩
        refine ⟨List.mem_cons_of_mem _ hx, hs⟩
      · rintro ⟨hx, hs⟩
        rcases List.mem_cons.1 hx with rfl | hx
        · exact absurd h hs
        · exact ⟨hx, hs⟩
    · simp only [dedupAux, if_neg h, List.mem_cons, ih]
      constructor
      · rintro (rfl | ⟨hx, hs⟩)
        · exact ⟨Or.inl rfl, h⟩
        · exact ⟨Or.inr hx, fun hxs => hs (Or.inr hxs)⟩
      · rintro ⟨rfl | hx, hs⟩
        · exact Or.inl rfl
        · by_cases hxid : x = id
          · exact Or.inl hxid
          · exact Or.inr ⟨hx, fun hmem => hmem.elim hxid hs⟩

theorem nodup_dedupAux : ∀ (l seen : List String), (dedupAux seen l).Nodup := by
  intro l
  induction l with
  | nil => intro seen; simp [dedupAux]
  | cons id rest ih =>
    intro seen
    by_cases h : id ∈ seen
    · simpa [dedupAux, if_pos h] using ih seen
    · simp only [dedupAux, if_neg h]
      refine List.nodup_cons.2 ⟨?_, ih _⟩
      intro hmem
      exact ((mem_dedupAux id rest (id :: seen)).1 hmem).2 (List.mem_cons_self _ _)

theorem mem_dedupIds (x : String) (l : List String) : x ∈ dedupIds l ↔ x ∈ l := by
  simp [dedupIds, mem_dedupAux]

theorem nodup_dedupIds (l : List String) : (dedupIds l).Nodup :=
  nodup_dedupAux l []

theorem toFinset_dedupIds (l : List String) : (dedupIds l).toFinset = l.toFinset := by
  ext x
  simp [mem_dedupIds]

theorem length_dedupIds (l : List String) : (dedupIds l).length = l.toFinset.card := by
  rw [← toFinset_dedupIds, List.toFinset_card_of_nodup (nodup_dedupIds l)]

theorem fetchPhase_sync_periods (inp : SyncInputs) :
    ∀ (ids : List String) (k : Nat) (st : RunState),
      ((fetchPhase inp ids k st).state).store.sync_periods = st.store.sync_periods := by
  intro ids
  induction ids with
  | nil => intro k st; rfl
  | cons id rest ih =>
    intro k st
    simp only [fetchPhase]
    by_cases hc : inp.cancelAfter = some k
    · simp [hc, Phase2Outcome.state]
    · simp only [if_neg hc]
      cases hf : inp.fetch id with
      | success conv =>
        by_cases hw : inp.storeWrite id = true
        · simp only [hw, if_true]
          rw [ih]
          simp [LocalStore.upsert]
        · simp [hw, Phase2Outcome.state]
      | transientError =>
        rw [ih]
      | notFound =>
        rw [ih]

theorem fetchPhase_complete (inp : SyncInputs)
    (hW : ∀ id, inp.storeWrite id = true) (hC : inp.cancelAfter = none) :
    ∀ (ids : List String) (k : Nat) (st : RunState),
      ∃ st', fetchPhase inp ids k st = Phase2Outcome.completed st' ∧
        st'.attempts = st.attempts ++ ids ∧
        st'.total = st.total + (ids.countP fun id => (inp.fetch id).isSuccess) ∧
        st'.errors = st.errors + (ids.countP fun id => (inp.fetch id).isTransient) := by
  intro ids
  induction ids with
  | nil =>
    intro k st
    exact ⟨st, rfl, by simp, by simp, by simp⟩
  | cons id rest ih =>
    intro k st
    have hcancel : ¬ inp.cancelAfter = some k := by simp [hC]
    simp only [fetchPhase, if_neg hcancel]
    cases hf : inp.fetch id with
    | success conv =>
      simp only [hW id, if_true]
      obtain ⟨st', h1, h2, h3, h4⟩ := ih (k + 1) _
      refine ⟨st', h1, ?_, ?_, ?_⟩
      · rw [h2]; simp
      · rw [h3]; simp [List.countP_cons, hf, FetchResult.isSuccess]; omega
      · rw [h4]; simp [List.countP_cons, hf, FetchResult.isTransient]
    | transientError =>
      obtain ⟨st', h1, h2, h3, h4⟩ := ih (k + 1) _
      refine ⟨st', h1, ?_, ?_, ?_⟩
      · rw [h2]; simp
      · rw [h3]; simp [List.countP_cons, hf, FetchResult.isSuccess]
      · rw [h4]; simp [List.countP_cons, hf, FetchResult.isTransient]; omega
    | notFound =>
      obtain ⟨st', h1, h2, h3, h4⟩ := ih (k + 1) _
      refine ⟨st', h1, ?_, ?_, ?_⟩
      · rw [h2]; simp
      · rw [h3]; simp [List.countP_cons, hf, FetchResult.isSuccess]
      · rw [h4]; simp [List.countP_cons, hf, FetchResult.isTransient]

theorem singleFlightInv_of_reachable (s : ServiceState) (h : ReachableServiceState s) :
    SingleFlightInv s := by
  induction h with
  | refl =>
    refine ⟨?_, ?_, ?_⟩ <;> simp [initialServiceState, SingleFlightInv]
  | tail _ hstep ih =>
    cases hstep with
    | acquire1 hs hc1 =>
      refine ⟨fun _ => rfl, fun _ => rfl, ?_⟩
      rintro ⟨-, h2⟩
      exact absurd (hs.symm.trans (ih.2.1 h2)) (by decide)
    | reject1 hs hc1 =>
      refine ⟨?_, ih.2.1, ?_⟩
      · intro h1; exact absurd h1 (by simp)
      · rintro ⟨h1, -⟩; exact absurd h1 (by simp)
    | finish1 stats hc1 =>
      refine ⟨?_, ?_, ?_⟩
      · intro h1; exact absurd h1 (by simp)
      · intro h2; exact absurd ⟨hc1, h2⟩ ih.2.2
      · rintro ⟨h1, -⟩; exact absurd h1 (by simp)
    | acquire2 hs hc2 =>
      refine ⟨fun _ => rfl, fun _ => rfl, ?_⟩
      rintro ⟨h1, -⟩
      exact absurd (hs.symm.trans (ih.1 h1)) (by decide)
    | reject2 hs hc2 =>
      refine ⟨ih.1, ?_, ?_⟩
      · intro h2; exact absurd h2 (by simp)
      · rintro ⟨-, h2⟩; exact absurd h2 (by simp)
    | finish2 stats hc2 =>
      refine ⟨?_, ?_, ?_⟩
      · intro h1; exact absurd ⟨h1, hc2⟩ ih.2.2
      · intro h2; exact absurd h2 (by simp)
      · rintro ⟨-, h2⟩; exact absurd h2 (by simp)

theorem foldl_add_callback (regs : List ProgressBroadcaster.Callback) :
    ∀ acc, List.foldl ProgressBroadcaster.add_callback acc regs = acc ++ regs := by
  induction regs with
  | nil => intro acc; simp
  | cons cb rest ih =>
    intro acc
    simp [List.foldl, ProgressBroadcaster.add_callback, ih]

/-! ## Claim theorems -/

/-- Claim C9 (confirmed): `ProgressBroadcaster.create_event` computes
`percentage = (current / total) * 100` exactly when `current` and `total`
are both present and `total > 0`, and leaves it `None` in every other
case — in particular no percentage is produced when `total` is zero or
negative, so the division is guarded away from `total = 0`. -/
theorem create_event_percentage_guarded (ts : String) (et : ProgressType)
    (msg : String) (md : List (String × String)) :
    (∀ c t : Int,
      (ProgressBroadcaster.create_event ts et msg (some c) (some t) md).percentage
        = if 0 < t then some (((c : Rat) / (t : Rat)) * 100) else none) ∧
    (∀ t, (ProgressBroadcaster.create_event ts et msg none t md).percentage = none) ∧
    (∀ c, (ProgressBroadcaster.create_event ts et msg c none md).percentage = none) := by
  refine ⟨fun c t => rfl, fun t => ?_, fun c => ?_⟩
  · cases t <;> rfl
  · cases c <;> rfl

/-- Claim C10 (confirmed): the window the CLI `sync` command passes to
`sync_period` under `--force` ends at `now` and spans exactly
`min(days, 30)` days; a forced manual sync therefore never covers more
than 30 days, any larger request being silently clamped. -/
theorem sync_force_window_clamped (days now : Int) :
    (Cli.sync_force_window days now).2 = now ∧
    (Cli.sync_force_window days now).2 - (Cli.sync_force_window days now).1
      = min days 30 * 86400 ∧
    (Cli.sync_force_window days now).2 - (Cli.sync_force_window days now).1
      ≤ 30 * 86400 := by
  refine ⟨rfl, ?_, ?_⟩
  · show now - (now - min days 30 * 86400) = min days 30 * 86400
    ring
  · show now - (now - min days 30 * 86400) ≤ 30 * 86400
    have h : min days 30 * 86400 ≤ 30 * 86400 :=
      mul_le_mul_of_nonneg_right (min_le_right _ _) (by norm_num)
    omega

/-- Claim C8 (confirmed): the callback loop of
`ProgressBroadcaster.broadcast` invokes every callback registered through
`add_callback` exactly once, in registration order, with the event being
broadcast; an exception raised by one callback only adds a warning, the
loop always terminates normally, and every later callback is still
invoked. -/
theorem broadcast_callback_isolation
    (registered : List ProgressBroadcaster.Callback) (event : ProgressEvent) :
    List.foldl ProgressBroadcaster.add_callback [] registered = registered ∧
    (ProgressBroadcaster.broadcast_callbacks event registered).calls
      = registered.map (fun cb => (event, cb event)) ∧
    (ProgressBroadcaster.broadcast_callbacks event registered).warnings
      = registered.filterMap (fun cb =>
          match cb event with
          | Except.error e => some ("Progress callback failed: " ++ e)
          | Except.ok _ => none) := by
  refine ⟨by simpa using foldl_add_callback registered [], ?_, ?_⟩
  · induction registered with
    | nil => rfl
    | cons cb rest ih =>
      simp only [ProgressBroadcaster.broadcast_callbacks, List.map]
      cases hr : cb event <;> simp [hr, ih]
  · induction registered with
    | nil => rfl
    | cons cb rest ih =>
      simp only [ProgressBroadcaster.broadcast_callbacks, List.filterMap]
      cases hr : cb event <;> simp [hr, ih]

/-- Claim C5, counterexample: the progress callback the CLI registers for
a forced manual sync declares exactly three positional parameters, so
delivering the single message string `"Progress: 5/20"` to it raises a
`TypeError` (no result), while the triple `(5, 20, 1.2)` is accepted —
the two call shapes are not accepted identically by every registered
callback. -/
theorem cli_callback_rejects_single_message :
    Cli.progress_callback (Cli.ProgressArgs.single "Progress: 5/20") = none ∧
    Cli.progress_callback (Cli.ProgressArgs.triple 5 20 (6 / 5)) = some () :=
  ⟨rfl, rfl⟩

/-- Claim C5 (amended): the variadic progress callback of the test suite
accepts both the single-message shape and the
`(current, total, elapsed)` triple without raising; the CLI's registered
callback accepts only the triple and raises on a single-message call. -/
theorem progress_callback_shapes :
    (∀ args, (Cli.test_suite_progress_callback args).isSome = true) ∧
    (∀ (c t : Int) (e : Rat),
      Cli.progress_callback (Cli.ProgressArgs.triple c t e) = some ()) ∧
    (∀ s, Cli.progress_callback (Cli.ProgressArgs.single s) = none) := by
  refine ⟨?_, fun c t e => rfl, fun s => rfl⟩
  intro args
  cases args <;> rfl

/-- Claim C7 (confirmed, spec-modelled): `sync_initial(days)` syncs the
window `[now - days, now)` when `days > 0`; when `days = 0` the window's
upper bound is `now` and its lower bound is absent, so every timestamp
before `now` lies in the window (unlimited history), and the window
computation is total — it does not crash on the absent lower bound. -/
theorem sync_initial_window_cases (days now : Int) :
    (0 < days →
      sync_initial_window days now = (some (now - days * 86400), now)) ∧
    (days = 0 →
      (sync_initial_window days now).1 = none ∧
      (sync_initial_window days now).2 = now ∧
      ∀ t : Int, t < now → inWindow (sync_initial_window days now) t) := by
  constructor
  · intro h
    simp [sync_initial_window, show days ≠ 0 by omega]
  · rintro rfl
    refine ⟨by simp [sync_initial_window], by simp [sync_initial_window], ?_⟩
    intro t ht
    simp [sync_initial_window, inWindow, ht]

/-- Witness for C7: a 7-day initial sync covers the last seven days, and
an unlimited initial sync (`days = 0`) covers a timestamp arbitrarily far
in the past. -/
theorem sync_initial_window_cases_witness :
    sync_initial_window 7 1000000 = (some (1000000 - 7 * 86400), 1000000) ∧
    inWindow (sync_initial_window 0 1000000) (-123456789) :=
  ⟨(sync_initial_window_cases 7 1000000).1 (by norm_num),
   ((sync_initial_window_cases 0 1000000).2 rfl).2.2 (-123456789) (by norm_num)⟩

/-- Claim C6 (confirmed, spec-modelled): a `sync_period` run whose
phase-1 search discovers zero identifiers returns normally with
`total_conversations = 0` and leaves the Local Store unchanged — no
conversation or message is written. -/
theorem sync_period_empty_search (inp : SyncInputs) (t0 t1 tn : Int)
    (store : LocalStore) (h : inp.pages.flatten = []) :
    sync_period inp t0 t1 tn store
      = SyncOutcome.ok store
          { total_conversations := 0, new_conversations := 0,
            updated_conversations := 0, total_messages := 0,
            duration_seconds := 0, api_calls_made := inp.pages.length,
            errors_encountered := 0 } := by
  simp [sync_period, h, dedupIds, dedupAux, fetchPhase, initialRunState, mkStats,
    Phase2Outcome.state]

/-- Witness for C6: a run over two empty search pages returns zero
conversations and leaves the store untouched. -/
theorem sync_period_empty_search_witness :
    sync_period Fixtures.emptyPagesInputs 0 100 100 Fixtures.storeWithPeriod
      = SyncOutcome.ok Fixtures.storeWithPeriod
          { total_conversations := 0, new_conversations := 0,
            updated_conversations := 0, total_messages := 0,
            duration_seconds := 0, api_calls_made := 2,
            errors_encountered := 0 } :=
  sync_period_empty_search Fixtures.emptyPagesInputs 0 100 100
    Fixtures.storeWithPeriod rfl

/-- Claim C1 (confirmed, spec-modelled): in every reachable state of the
single-flight transition system for two concurrent `sync_recent()`
callers, at most one caller is executing a coordinator pass against the
Local Store at a time — so two passes never write simultaneously — and a
caller that has returned holds either a completed pass's `SyncStats` or
the structured "already running" indication. -/
theorem single_flight_guarantee (s : ServiceState) (h : ReachableServiceState s) :
    ¬(s.caller1 = CallerPhase.running ∧ s.caller2 = CallerPhase.running) ∧
    (∀ r, s.caller1 = CallerPhase.done r ∨ s.caller2 = CallerPhase.done r →
      (∃ stats, r = SyncCallResult.completed stats) ∨
        r = SyncCallResult.alreadyRunning) := by
  refine ⟨(singleFlightInv_of_reachable s h).2.2, ?_⟩
  intro r _
  cases r with
  | completed stats => exact Or.inl ⟨stats, rfl⟩
  | alreadyRunning => exact Or.inr rfl

/-- Witness for C1: after caller 1 acquires the sync flag and caller 2 is
rejected with "already running", the two callers are not both running. -/
theorem single_flight_guarantee_witness :
    ¬(Fixtures.interleavedState.caller1 = CallerPhase.running ∧
      Fixtures.interleavedState.caller2 = CallerPhase.running) := by
  have h1 : SyncStep initialServiceState
      { syncing := true, caller1 := CallerPhase.running,
        caller2 := CallerPhase.idle } :=
    SyncStep.acquire1 initialServiceState rfl rfl
  have h2 : SyncStep
      { syncing := true, caller1 := CallerPhase.running,
        caller2 := CallerPhase.idle }
      Fixtures.interleavedState :=
    SyncStep.reject2 _ rfl rfl
  exact (single_flight_guarantee Fixtures.interleavedState
    (Relation.ReflTransGen.tail (Relation.ReflTransGen.single h1) h2)).1

/-- Claim C4 (confirmed, spec-modelled): `record_sync_period` coverage is
written only after a fully completed sync of the window — every pass that
raises (a `LocalStoreError` abort, cancellation before completion, or a
pass in which zero conversations could be processed) leaves the coverage
records exactly as they were, while a fully successful pass over a
nonempty discovery adds exactly the one record for its window. -/
theorem record_sync_period_only_on_success (inp : SyncInputs)
    (t0 t1 tn : Int) (store : LocalStore) :
    (∀ store' err, sync_period inp t0 t1 tn store = SyncOutcome.failed store' err →
      store'.sync_periods = store.sync_periods) ∧
    (∀ store' stats, sync_period inp t0 t1 tn store = SyncOutcome.ok store' stats →
      store'.sync_periods = store.sync_periods ∨
      store'.sync_periods
        = { period_start := t0, period_end := t1,
            conversation_count := stats.total_conversations,
            last_synced := tn } :: store.sync_periods) := by
  have hbase := fetchPhase_sync_periods inp (dedupIds inp.pages.flatten) 0
      (initialRunState store inp.pages.length)
  constructor
  · intro store' err heq
    simp only [sync_period] at heq
    split at heq
    next st hfp =>
      rw [hfp] at hbase
      simp only [Phase2Outcome.state] at hbase
      split_ifs at heq with h1 h2
      injection heq with hs he
      subst hs
      exact hbase
    next st hfp =>
      rw [hfp] at hbase
      simp only [Phase2Outcome.state] at hbase
      injection heq with hs he
      subst hs
      exact hbase
    next st hfp =>
      rw [hfp] at hbase
      simp only [Phase2Outcome.state] at hbase
      injection heq with hs he
      subst hs
      exact hbase
  · intro store' stats heq
    simp only [sync_period] at heq
    split at heq
    next st hfp =>
      rw [hfp] at hbase
      simp only [Phase2Outcome.state] at hbase
      split_ifs at heq with h1 h2
      · injection heq with hs hstats
        subst hs
        exact Or.inl hbase
      · injection heq with hs hstats
        subst hs
        subst hstats
        exact Or.inr
          (by simp [LocalStore.record_sync_period, mkStats, hbase, initialRunState])
    next st hfp => exact SyncOutcome.noConfusion heq
    next st hfp => exact SyncOutcome.noConfusion heq

/-- Witness for C4: the pass over `failingWriteInputs` aborts with a
`LocalStoreError` after upserting `A`, and the aborted pass leaves the
pre-existing coverage records unchanged. -/
theorem record_sync_period_only_on_success_witness :
    Fixtures.storeAfterAbort.sync_periods = Fixtures.storeWithPeriod.sync_periods :=
  (record_sync_period_only_on_success Fixtures.failingWriteInputs 0 100 100
      Fixtures.storeWithPeriod).1 Fixtures.storeAfterAbort
    SyncError.localStoreError (by decide)

/-- Claim C2 (confirmed, spec-modelled): when the phase-1 search of a
window discovers exactly the identifiers `[A, B, C]` and the fetch of `B`
raises a `TransientRemoteError` while `A` and `C` fetch successfully, the
run completes normally, `A` and `C` are upserted into the Local Store,
and the returned stats report `total_conversations = 2` and
`errors_encountered = 1`. -/
theorem sync_period_partial_failure (A B C : String) (cA cC : Conversation)
    (store : LocalStore) (t0 t1 tn : Int) (f : String → FetchResult)
    (hAB : A ≠ B) (hAC : A ≠ C) (hBC : B ≠ C)
    (hfA : f A = FetchResult.success cA)
    (hfB : f B = FetchResult.transientError)
    (hfC : f C = FetchResult.success cC) :
    match sync_period (SyncInputs.mk [[A, B, C]] f (fun _ => true) none)
        t0 t1 tn store with
    | SyncOutcome.ok store' stats =>
        stats.total_conversations = 2 ∧ stats.errors_encountered = 1 ∧
        store'.get_conversation_by_id A = some cA ∧
        store'.get_conversation_by_id C = some cC
    | SyncOutcome.failed _ _ => False := by
  have hBA : B ≠ A := Ne.symm hAB
  have hCA : C ≠ A := Ne.symm hAC
  have hCB : C ≠ B := Ne.symm hBC
  have hids : dedupIds ([[A, B, C]] : List (List String)).flatten = [A, B, C] := by
    simp [dedupIds, dedupAux, hBA, hCA, hCB]
  simp only [sync_period, hids]
  simp only [fetchPhase, hfA, hfB, hfC, initialRunState]
  simp [mkStats, LocalStore.record_sync_period, LocalStore.get_conversation_by_id,
    LocalStore.upsert, lookupConv_upsertConv_self,
    lookupConv_upsertConv_ne _ _ _ _ hAC]

/-- Witness for C2: the concrete run over identifiers `A`, `B`, `C` with
`B` failing transiently returns two conversations and one error, with `A`
and `C` stored. -/
theorem sync_period_partial_failure_witness :
    match sync_period (SyncInputs.mk [["A", "B", "C"]] Fixtures.demoFetch
        (fun _ => true) none) 0 100 100 Fixtures.emptyStore with
    | SyncOutcome.ok store' stats =>
        stats.total_conversations = 2 ∧ stats.errors_encountered = 1 ∧
        store'.get_conversation_by_id "A" = some Fixtures.convA ∧
        store'.get_conversation_by_id "C" = some Fixtures.convC
    | SyncOutcome.failed _ _ => False :=
  sync_period_partial_failure "A" "B" "C" Fixtures.convA Fixtures.convC
    Fixtures.emptyStore 0 100 100 Fixtures.demoFetch
    (by decide) (by decide) (by decide) (by decide) (by decide) (by decide)

/-- Claim C3, counterexample: over the page sequence
`[["A", "B"], [], ["B", "C"]]` — which contains an empty page and a
duplicated identifier — three distinct identifiers are discovered, but
when the fetch of `B` raises a `TransientRemoteError` the returned
`SyncStats.total_conversations` is `2`, not the number of distinct
identifiers discovered. -/
theorem dedup_total_counterexample :
    (Fixtures.dupInputs.pages.flatten).toFinset.card = 3 ∧
    (match sync_period Fixtures.dupInputs 0 100 100 Fixtures.emptyStore with
     | SyncOutcome.ok _ stats => some stats.total_conversations
     | SyncOutcome.failed _ _ => none) = some 2 :=
  ⟨by decide, by decide⟩

/-- Claim C3 (amended, spec-modelled): identifiers are deduplicated
before phase 2 — the phase-2 fetch trace is exactly the duplicate-free
first-occurrence list of the discovered identifiers, so each distinct
identifier is fetched at most once even across pages with empty or
repeated content — and `SyncStats.total_conversations` equals the number
of distinct identifiers successfully fetched, which equals the number of
distinct identifiers discovered whenever every fetch succeeds. -/
theorem dedup_before_fetch_and_total (inp : SyncInputs) (t0 t1 tn : Int)
    (store : LocalStore)
    (hW : ∀ id, inp.storeWrite id = true) (hC : inp.cancelAfter = none) :
    (dedupIds inp.pages.flatten).Nodup ∧
    (∀ x, x ∈ dedupIds inp.pages.flatten ↔ x ∈ inp.pages.flatten) ∧
    (fetchPhase inp (dedupIds inp.pages.flatten) 0
        (initialRunState store inp.pages.length)).state.attempts
      = dedupIds inp.pages.flatten ∧
    (match sync_period inp t0 t1 tn store with
     | SyncOutcome.ok _ stats =>
         stats.total_conversations
           = (dedupIds inp.pages.flatten).countP
               (fun id => (inp.fetch id).isSuccess)
     | SyncOutcome.failed _ _ => True) ∧
    ((∀ id, id ∈ inp.pages.flatten → (inp.fetch id).isSuccess = true) →
      match sync_period inp t0 t1 tn store with
      | SyncOutcome.ok _ stats =>
          stats.total_conversations = (inp.pages.flatten).toFinset.card
      | SyncOutcome.failed _ _ => False) := by
  obtain ⟨st', h1, h2, h3, h4⟩ := fetchPhase_complete inp hW hC
    (dedupIds inp.pages.flatten) 0 (initialRunState store inp.pages.length)
  have hattempts : (fetchPhase inp (dedupIds inp.pages.flatten) 0
      (initialRunState store inp.pages.length)).state.attempts
        = dedupIds inp.pages.flatten := by
    rw [h1]
    simpa [Phase2Outcome.state, initialRunState] using h2
  have htotal : st'.total
      = (dedupIds inp.pages.flatten).countP (fun id => (inp.fetch id).isSuccess) := by
    simpa [initialRunState] using h3
  have herrors : st'.errors
      = (dedupIds inp.pages.flatten).countP (fun id => (inp.fetch id).isTransient) := by
    simpa [initialRunState] using h4
  refine ⟨nodup_dedupIds _, fun x => mem_dedupIds x _, hattempts, ?_, ?_⟩
  · simp only [sync_period, h1]
    split_ifs with hraise hempty
    · trivial
    · simp [mkStats, htotal]
    · simp [mkStats, htotal]
  · intro hall
    have hsucc : ∀ id ∈ dedupIds inp.pages.flatten,
        (inp.fetch id).isSuccess = true := by
      intro id hid
      exact hall id ((mem_dedupIds id _).1 hid)
    have hcount : (dedupIds inp.pages.flatten).countP
        (fun id => (inp.fetch id).isSuccess) = (dedupIds inp.pages.flatten).length :=
      List.countP_eq_length.2 hsucc
    have hzero : (dedupIds inp.pages.flatten).countP
        (fun id => (inp.fetch id).isTransient) = 0 := by
      rw [List.countP_eq_zero]
      intro id hid
      have hs := hsucc id hid
      cases hf : inp.fetch id with
      | success conv => simp [FetchResult.isTransient]
      | transientError => rw [hf] at hs; simp [FetchResult.isSuccess] at hs
      | notFound => simp [FetchResult.isTransient]
    simp only [sync_period, h1]
    split_ifs with hraise hempty
    · exact absurd hraise (by simp [herrors, hzero])
    · simp only [mkStats]
      rw [htotal, hcount, length_dedupIds]
    · simp only [mkStats]
      rw [htotal, hcount, length_dedupIds]

/-- Witness for the amended C3: over the duplicate-and-empty page
sequence, the deduplicated identifier list is duplicate-free and covers
exactly the discovered identifiers. -/
theorem dedup_before_fetch_and_total_witness :
    (dedupIds Fixtures.dupInputs.pages.flatten).Nodup ∧
    (∀ x, x ∈ dedupIds Fixtures.dupInputs.pages.flatten ↔
      x ∈ Fixtures.dupInputs.pages.flatten) :=
  ⟨(dedup_before_fetch_and_total Fixtures.dupInputs 0 100 100
      Fixtures.emptyStore (fun _ => rfl) rfl).1,
   (dedup_before_fetch_and_total Fixtures.dupInputs 0 100 100
      Fixtures.emptyStore (fun _ => rfl) rfl).2.1⟩
